import Mathlib

/-!
# 842 format constants (`lib/842/842.h`) and the ACP position counter
(`sound/soc/amd/acp/amd.h`)

The first part embeds the constants of `lib/842/842.h`: template codes, argument
widths and the op encoding.  The second part embeds `acp_get_byte_count` of
`sound/soc/amd/acp/amd.h` as a function over an explicit device state.
-/

namespace Sw842

/-! ## Constants of `lib/842/842.h` -/

/-- Special template `OP_REPEAT` (842.h:57). -/
def OP_REPEAT : Nat := 0x1B
/-- Special template `OP_ZEROS` (842.h:58). -/
def OP_ZEROS : Nat := 0x1C
/-- Special template `OP_END` (842.h:59). -/
def OP_END : Nat := 0x1E
/-- Software-only template `OP_SHORT_DATA` (842.h:65). -/
def OP_SHORT_DATA : Nat := 0x1D

/-- Bits of a template code (842.h:68). -/
def OP_BITS : Nat := 5
/-- Bits of the repeat argument (842.h:69). -/
def REPEAT_BITS : Nat := 6
/-- Bits of the short-data length argument (842.h:70). -/
def SHORT_DATA_BITS : Nat := 3
/-- Bits of an I2 index argument (842.h:71). -/
def I2_BITS : Nat := 8
/-- Bits of an I4 index argument (842.h:72). -/
def I4_BITS : Nat := 9
/-- Bits of an I8 index argument (842.h:73). -/
def I8_BITS : Nat := 8
/-- Bits of the CRC trailer (842.h:74). -/
def CRC_BITS : Nat := 32

/-- Largest repeat argument (842.h:76). -/
def REPEAT_BITS_MAX : Nat := 0x3f
/-- Largest short-data length argument (842.h:77). -/
def SHORT_DATA_BITS_MAX : Nat := 0x7

/-- Mask of the action part of an op (842.h:80). -/
def OP_ACTION : Nat := 0x70
/-- Action tag of an index op (842.h:81). -/
def OP_ACTION_INDEX : Nat := 0x10
/-- Action tag of a data op (842.h:82). -/
def OP_ACTION_DATA : Nat := 0x20
/-- Action tag of the no-op (842.h:83). -/
def OP_ACTION_NOOP : Nat := 0x40
/-- Mask of the byte amount of an op (842.h:84). -/
def OP_AMOUNT : Nat := 0x0f
/-- Amount 0 (842.h:85). -/
def OP_AMOUNT_0 : Nat := 0x00
/-- Amount 2 (842.h:86). -/
def OP_AMOUNT_2 : Nat := 0x02
/-- Amount 4 (842.h:87). -/
def OP_AMOUNT_4 : Nat := 0x04
/-- Amount 8 (842.h:88). -/
def OP_AMOUNT_8 : Nat := 0x08

/-- Op `D2` (842.h:90). -/
def D2 : Nat := OP_ACTION_DATA ||| OP_AMOUNT_2
/-- Op `D4` (842.h:91). -/
def D4 : Nat := OP_ACTION_DATA ||| OP_AMOUNT_4
/-- Op `D8` (842.h:92). -/
def D8 : Nat := OP_ACTION_DATA ||| OP_AMOUNT_8
/-- Op `I2` (842.h:93). -/
def I2 : Nat := OP_ACTION_INDEX ||| OP_AMOUNT_2
/-- Op `I4` (842.h:94). -/
def I4 : Nat := OP_ACTION_INDEX ||| OP_AMOUNT_4
/-- Op `I8` (842.h:95). -/
def I8 : Nat := OP_ACTION_INDEX ||| OP_AMOUNT_8
/-- Op `N0` (842.h:96). -/
def N0 : Nat := OP_ACTION_NOOP ||| OP_AMOUNT_0

/-- The max of the regular templates, not including the special templates
(842.h:99). -/
def OPS_MAX : Nat := 0x1a

/-- The seven ops a template row is built from (842.h:90-96), in the order of
their definition. -/
def ops : List Nat := [D2, D4, D8, I2, I4, I8, N0]

/-- A template code that is neither a regular template (below `OPS_MAX`) nor one
of the four special templates. -/
def isInvalidCode (c : Nat) : Bool :=
  !(decide (c < OPS_MAX) || c == OP_REPEAT || c == OP_ZEROS || c == OP_SHORT_DATA
    || c == OP_END)

/-- How many of the six classes (regular, repeat, zeros, short data, end,
invalid) a template code belongs to. -/
def classCount (c : Nat) : Nat :=
  (if c < OPS_MAX then 1 else 0) + (if c = OP_REPEAT then 1 else 0)
    + (if c = OP_ZEROS then 1 else 0) + (if c = OP_SHORT_DATA then 1 else 0)
    + (if c = OP_END then 1 else 0) + (if isInvalidCode c then 1 else 0)

/-! ## Decoder steps described by the format comment of `842.h` -/

/-- Modelled from the spec: `n` further append operations of the last 8 output
bytes (the body of the decoder's REPEAT loop; the decoder is not among the
sources). -/
def appendLast8 : Nat → List Nat → List Nat
  | 0, out => out
  | n + 1, out => appendLast8 n (out ++ out.drop (out.length - 8))

/-- Modelled from the spec: the decoder's REPEAT step with argument `N` (the
decoder is not among the sources): it requires 8 bytes of output and appends the
last 8 bytes `N + 1` times. -/
def doRepeat (out : List Nat) (N : Nat) : Option (List Nat) :=
  if out.length < 8 then none else some (appendLast8 (N + 1) out)

end Sw842

namespace Acp

/-! ## `sound/soc/amd/acp/amd.h` -/

/-- Instance id `I2S_SP_INSTANCE` (amd.h:24). -/
def I2S_SP_INSTANCE : Int := 0x00
/-- Instance id `I2S_BT_INSTANCE` (amd.h:25). -/
def I2S_BT_INSTANCE : Int := 0x01
/-- Instance id `DMIC_INSTANCE` (amd.h:26). -/
def DMIC_INSTANCE : Int := 0x02
/-- Instance id `I2S_HS_INSTANCE` (amd.h:27). -/
def I2S_HS_INSTANCE : Int := 0x03

/-- Modelled from the spec: the errno constant `EINVAL`, declared in a header
that is not among the sources; its value is 22. -/
def EINVAL : Int := 22

/-- Names `acp_get_byte_count` uses that are declared in headers not among the
sources (`chip_offset_byte.h`, `sound/pcm.h`): the playback direction and the
offsets of the linear position counter registers.  They are parameters of the
embedding. -/
structure Externals where
  SNDRV_PCM_STREAM_PLAYBACK : Int
  ACP_BT_TX_LINEARPOSITIONCNTR_HIGH : Nat
  ACP_BT_TX_LINEARPOSITIONCNTR_LOW : Nat
  ACP_I2S_TX_LINEARPOSITIONCNTR_HIGH : Nat
  ACP_I2S_TX_LINEARPOSITIONCNTR_LOW : Nat
  ACP_HS_TX_LINEARPOSITIONCNTR_HIGH : Nat
  ACP_HS_TX_LINEARPOSITIONCNTR_LOW : Nat
  ACP_BT_RX_LINEARPOSITIONCNTR_HIGH : Nat
  ACP_BT_RX_LINEARPOSITIONCNTR_LOW : Nat
  ACP_I2S_RX_LINEARPOSITIONCNTR_HIGH : Nat
  ACP_I2S_RX_LINEARPOSITIONCNTR_LOW : Nat
  ACP_HS_RX_LINEARPOSITIONCNTR_HIGH : Nat
  ACP_HS_RX_LINEARPOSITIONCNTR_LOW : Nat
  ACP_WOV_RX_LINEARPOSITIONCNTR_HIGH : Nat
  ACP_WOV_RX_LINEARPOSITIONCNTR_LOW : Nat

/-- The field of `struct acp_dev_data` (amd.h:116) the function reads. -/
structure acp_dev_data where
  acp_base : Nat

/-- A device with state `σ`: `readl` returns the register value at an address
and the state after the read. -/
structure Device (σ : Type) where
  readl : σ → Nat → Nat × σ

/-- Conversion of an `int` to `u64`. -/
def toU64 (i : Int) : Nat := (i % 2 ^ 64).toNat

/-- What a call does: the returned `u64`, the device state after it, the
addresses read (in order) and the dai ids reported through `dev_err`. -/
structure Outcome (σ : Type) where
  ret : Nat
  dev : σ
  reads : List Nat
  errs : List Int

/-- Line 206: `byte_count = (high << 32) | low`, on `u64` operands. -/
def byteCount (high low : Nat) : Nat := ((high <<< 32) % 2 ^ 64) ||| low

/-- The two `readl` calls of one `case` (high first, then low) followed by
lines 205-208: `byte_count = (high << 32) | low; return byte_count;`.  `readl`
returns a `u32`, held in the `u64` variables `high` and `low`. -/
def readCounter {σ : Type} (d : Device σ) (s : σ) (adata : acp_dev_data)
    (hiOff loOff : Nat) : Outcome σ :=
  let r1 := d.readl s (adata.acp_base + hiOff)
  let high := r1.1 % 2 ^ 32
  let r2 := d.readl r1.2 (adata.acp_base + loOff)
  let low := r2.1 % 2 ^ 32
  let byte_count := byteCount high low
  { ret := byte_count, dev := r2.2,
    reads := [adata.acp_base + hiOff, adata.acp_base + loOff], errs := [] }

/-- The `default:` branches (amd.h:178-180, 200-202): `dev_err` and
`return -EINVAL`, converted to the `u64` return type. -/
def invalidDai {σ : Type} (s : σ) (dai_id : Int) : Outcome σ :=
  { ret := toU64 (-EINVAL), dev := s, reads := [], errs := [dai_id] }

/-- Embedding of `acp_get_byte_count` (amd.h:160-209). -/
def acp_get_byte_count {σ : Type} (x : Externals) (d : Device σ) (s : σ)
    (adata : acp_dev_data) (dai_id : Int) (direction : Int) : Outcome σ :=
  if direction = x.SNDRV_PCM_STREAM_PLAYBACK then
    if dai_id = I2S_BT_INSTANCE then
      readCounter d s adata x.ACP_BT_TX_LINEARPOSITIONCNTR_HIGH
        x.ACP_BT_TX_LINEARPOSITIONCNTR_LOW
    else if dai_id = I2S_SP_INSTANCE then
      readCounter d s adata x.ACP_I2S_TX_LINEARPOSITIONCNTR_HIGH
        x.ACP_I2S_TX_LINEARPOSITIONCNTR_LOW
    else if dai_id = I2S_HS_INSTANCE then
      readCounter d s adata x.ACP_HS_TX_LINEARPOSITIONCNTR_HIGH
        x.ACP_HS_TX_LINEARPOSITIONCNTR_LOW
    else invalidDai s dai_id
  else
    if dai_id = I2S_BT_INSTANCE then
      readCounter d s adata x.ACP_BT_RX_LINEARPOSITIONCNTR_HIGH
        x.ACP_BT_RX_LINEARPOSITIONCNTR_LOW
    else if dai_id = I2S_SP_INSTANCE then
      readCounter d s adata x.ACP_I2S_RX_LINEARPOSITIONCNTR_HIGH
        x.ACP_I2S_RX_LINEARPOSITIONCNTR_LOW
    else if dai_id = I2S_HS_INSTANCE then
      readCounter d s adata x.ACP_HS_RX_LINEARPOSITIONCNTR_HIGH
        x.ACP_HS_RX_LINEARPOSITIONCNTR_LOW
    else if dai_id = DMIC_INSTANCE then
      readCounter d s adata x.ACP_WOV_RX_LINEARPOSITIONCNTR_HIGH
        x.ACP_WOV_RX_LINEARPOSITIONCNTR_LOW
    else invalidDai s dai_id

/-- The accepted `(direction, dai_id)` pairs, stated as a set: for playback the
three I2S instances; for any other direction those three and the DMIC one. -/
def accepted (x : Externals) (direction dai_id : Int) : Prop :=
  if direction = x.SNDRV_PCM_STREAM_PLAYBACK then
    dai_id = I2S_SP_INSTANCE ∨ dai_id = I2S_BT_INSTANCE ∨ dai_id = I2S_HS_INSTANCE
  else
    dai_id = I2S_SP_INSTANCE ∨ dai_id = I2S_BT_INSTANCE ∨ dai_id = I2S_HS_INSTANCE
      ∨ dai_id = DMIC_INSTANCE

instance (x : Externals) (direction dai_id : Int) :
    Decidable (accepted x direction dai_id) :=
  inferInstanceAs (Decidable (if direction = x.SNDRV_PCM_STREAM_PLAYBACK then
    dai_id = I2S_SP_INSTANCE ∨ dai_id = I2S_BT_INSTANCE ∨ dai_id = I2S_HS_INSTANCE
  else
    dai_id = I2S_SP_INSTANCE ∨ dai_id = I2S_BT_INSTANCE ∨ dai_id = I2S_HS_INSTANCE
      ∨ dai_id = DMIC_INSTANCE))

/-- The value the first `readl` of a call returns, as a `u32`, when the call
reads at all. -/
def firstRead {σ : Type} (d : Device σ) (s : σ) (o : Outcome σ) : Nat :=
  match o.reads with
  | a :: _ => (d.readl s a).1 % 2 ^ 32
  | [] => 0

/-- The value the second `readl` of a call returns, as a `u32`, when the call
reads twice. -/
def secondRead {σ : Type} (d : Device σ) (s : σ) (o : Outcome σ) : Nat :=
  match o.reads with
  | a :: b :: _ => (d.readl (d.readl s a).2 b).1 % 2 ^ 32
  | _ => 0

/-- Example externals: playback is direction 0, the registers sit at distinct
offsets. -/
def exampleExternals : Externals :=
  { SNDRV_PCM_STREAM_PLAYBACK := 0
    ACP_BT_TX_LINEARPOSITIONCNTR_HIGH := 0x10, ACP_BT_TX_LINEARPOSITIONCNTR_LOW := 0x14
    ACP_I2S_TX_LINEARPOSITIONCNTR_HIGH := 0x20, ACP_I2S_TX_LINEARPOSITIONCNTR_LOW := 0x24
    ACP_HS_TX_LINEARPOSITIONCNTR_HIGH := 0x30, ACP_HS_TX_LINEARPOSITIONCNTR_LOW := 0x34
    ACP_BT_RX_LINEARPOSITIONCNTR_HIGH := 0x40, ACP_BT_RX_LINEARPOSITIONCNTR_LOW := 0x44
    ACP_I2S_RX_LINEARPOSITIONCNTR_HIGH := 0x50, ACP_I2S_RX_LINEARPOSITIONCNTR_LOW := 0x54
    ACP_HS_RX_LINEARPOSITIONCNTR_HIGH := 0x60, ACP_HS_RX_LINEARPOSITIONCNTR_LOW := 0x64
    ACP_WOV_RX_LINEARPOSITIONCNTR_HIGH := 0x70, ACP_WOV_RX_LINEARPOSITIONCNTR_LOW := 0x74 }

/-- Example device whose state counts the reads made: the first read returns
`0xFFFFFFFF`, every later one `0xFFFFFFEA`. -/
def exampleDevice : Device Nat :=
  { readl := fun n _ => (if n = 0 then 0xFFFFFFFF else 0xFFFFFFEA, n + 1) }

end Acp

/-! ## Helper lemmas -/

namespace Sw842

theorem length_appendLast8 (n : Nat) (out : List Nat) (h : 8 ≤ out.length) :
    (appendLast8 n out).length = out.length + 8 * n := by
  induction n generalizing out with
  | zero => simp [appendLast8]
  | succ n ih =>
    have hlen : (out ++ out.drop (out.length - 8)).length = out.length + 8 := by
      simp only [List.length_append, List.length_drop]
      omega
    rw [appendLast8, ih _ (by omega), hlen]
    omega

end Sw842

namespace Acp

theorem byteCount_eq (high low : Nat) (hh : high < 2 ^ 32) (hl : low < 2 ^ 32) :
    byteCount high low = high * 2 ^ 32 + low := by
  unfold byteCount
  rw [Nat.shiftLeft_eq, Nat.mod_eq_of_lt (by omega), Nat.mul_comm,
    ← Nat.mul_add_lt_is_or hl]

theorem readCounter_spec {σ : Type} (d : Device σ) (s : σ) (adata : acp_dev_data)
    (hiOff loOff : Nat) :
    (readCounter d s adata hiOff loOff).reads.length = 2 ∧
    (readCounter d s adata hiOff loOff).errs = [] ∧
    (readCounter d s adata hiOff loOff).ret =
      byteCount (firstRead d s (readCounter d s adata hiOff loOff))
        (secondRead d s (readCounter d s adata hiOff loOff)) := by
  simp [readCounter, firstRead, secondRead]

theorem firstRead_lt {σ : Type} (d : Device σ) (s : σ) (o : Outcome σ) :
    firstRead d s o < 2 ^ 32 := by
  unfold firstRead
  split
  · exact Nat.mod_lt _ (by norm_num)
  · norm_num

theorem secondRead_lt {σ : Type} (d : Device σ) (s : σ) (o : Outcome σ) :
    secondRead d s o < 2 ^ 32 := by
  unfold secondRead
  split
  · exact Nat.mod_lt _ (by norm_num)
  · norm_num

/-- On an accepted pair the call is one of the `readCounter` cases. -/
theorem accepted_readCounter {σ : Type} (x : Externals) (d : Device σ) (s : σ)
    (adata : acp_dev_data) (dai_id direction : Int)
    (hacc : accepted x direction dai_id) :
    ∃ hiOff loOff,
      acp_get_byte_count x d s adata dai_id direction =
        readCounter d s adata hiOff loOff := by
  unfold accepted at hacc
  unfold acp_get_byte_count
  by_cases hdir : direction = x.SNDRV_PCM_STREAM_PLAYBACK
  · rw [if_pos hdir] at hacc ⊢
    rcases hacc with h | h | h <;> subst h <;>
      simp [I2S_SP_INSTANCE, I2S_BT_INSTANCE, I2S_HS_INSTANCE]
  · rw [if_neg hdir] at hacc ⊢
    rcases hacc with h | h | h | h <;> subst h <;>
      simp [I2S_SP_INSTANCE, I2S_BT_INSTANCE, I2S_HS_INSTANCE, DMIC_INSTANCE]

/-- Off the accepted pairs the call is the `default:` branch. -/
theorem rejected_invalidDai {σ : Type} (x : Externals) (d : Device σ) (s : σ)
    (adata : acp_dev_data) (dai_id direction : Int)
    (hrej : ¬ accepted x direction dai_id) :
    acp_get_byte_count x d s adata dai_id direction = invalidDai s dai_id := by
  unfold accepted at hrej
  unfold acp_get_byte_count
  by_cases hdir : direction = x.SNDRV_PCM_STREAM_PLAYBACK
  · rw [if_pos hdir] at hrej ⊢
    simp only [not_or] at hrej
    rw [if_neg hrej.2.1, if_neg hrej.1, if_neg hrej.2.2]
  · rw [if_neg hdir] at hrej ⊢
    simp only [not_or] at hrej
    rw [if_neg hrej.2.1, if_neg hrej.1, if_neg hrej.2.2.1, if_neg hrej.2.2.2]

theorem toU64_neg_EINVAL : toU64 (-EINVAL) = 2 ^ 64 - 22 := by decide

end Acp

/-! ## The 842 format constants -/

namespace Sw842

/-- C1: every 5-bit template code `c` belongs to exactly one of the classes
regular (`c < OPS_MAX`, the 26 values `0..0x19`), `OP_REPEAT` (`0x1B`),
`OP_ZEROS` (`0x1C`), `OP_SHORT_DATA` (`0x1D`), `OP_END` (`0x1E`), invalid; the
four special codes are pairwise distinct, at or above `OPS_MAX` and below
`2^OP_BITS`; `c` is invalid exactly when it is `0x1A` or `0x1F`. -/
theorem template_code_partition (c : Nat) (hc : c < 2 ^ OP_BITS) :
    2 ^ OP_BITS = 32 ∧ OPS_MAX = 26 ∧
    [OP_REPEAT, OP_ZEROS, OP_SHORT_DATA, OP_END] = [0x1B, 0x1C, 0x1D, 0x1E] ∧
    [OP_REPEAT, OP_ZEROS, OP_SHORT_DATA, OP_END].Nodup ∧
    (∀ s ∈ [OP_REPEAT, OP_ZEROS, OP_SHORT_DATA, OP_END],
      OPS_MAX ≤ s ∧ s < 2 ^ OP_BITS) ∧
    classCount c = 1 ∧
    (isInvalidCode c = true ↔ c = 0x1A ∨ c = 0x1F) := by
  refine ⟨by decide, by decide, by decide, by decide, by decide, ?_, ?_⟩
  · have h : c < 32 := hc
    interval_cases c <;> decide
  · have h : c < 32 := hc
    interval_cases c <;> decide

/-- Witness of C1 at the invalid code `0x1F`. -/
theorem template_code_partition_witness :
    0x1F < 2 ^ OP_BITS ∧ classCount 0x1F = 1 ∧ isInvalidCode 0x1F = true :=
  ⟨by decide, (template_code_partition 0x1F (by decide)).2.2.2.2.2.1,
    (template_code_partition 0x1F (by decide)).2.2.2.2.2.2.mpr (Or.inr rfl)⟩

/-- C2: the index widths are 8, 9 and 8 bits and the addressable ring window of
each index op is `2^bits` slots times the op's byte amount: 256 * 2 = 512 bytes
for I2, 512 * 4 = 2048 for I4, 256 * 8 = 2048 for I8. -/
theorem index_windows :
    I2_BITS = 8 ∧ I4_BITS = 9 ∧ I8_BITS = 8 ∧
    2 ^ I2_BITS = 256 ∧ 2 ^ I4_BITS = 512 ∧ 2 ^ I8_BITS = 256 ∧
    I2 &&& OP_AMOUNT = 2 ∧ I4 &&& OP_AMOUNT = 4 ∧ I8 &&& OP_AMOUNT = 8 ∧
    2 ^ I2_BITS * (I2 &&& OP_AMOUNT) = 512 ∧
    2 ^ I4_BITS * (I4 &&& OP_AMOUNT) = 2048 ∧
    2 ^ I8_BITS * (I8 &&& OP_AMOUNT) = 2048 := by
  decide

/-- C4: `REPEAT_BITS` is 6 and `REPEAT_BITS_MAX` is `2^REPEAT_BITS - 1 = 63`; for
a count `N ≤ REPEAT_BITS_MAX` one REPEAT on an output of at least 8 bytes
succeeds and appends `8 * (N + 1)` bytes, which is between 8 and 512; the
bounds are met at `N = 0` (8 bytes) and `N = 63` (512 bytes). -/
theorem repeat_bounds (N : Nat) (hN : N ≤ REPEAT_BITS_MAX) (out : List Nat)
    (hout : 8 ≤ out.length) :
    REPEAT_BITS = 6 ∧ REPEAT_BITS_MAX = 2 ^ REPEAT_BITS - 1 ∧ REPEAT_BITS_MAX = 63 ∧
    (∃ out', doRepeat out N = some out' ∧
      out'.length = out.length + 8 * (N + 1)) ∧
    8 ≤ 8 * (N + 1) ∧ 8 * (N + 1) ≤ 512 ∧
    8 * (0 + 1) = 8 ∧ 8 * (REPEAT_BITS_MAX + 1) = 512 := by
  have hmax : REPEAT_BITS_MAX = 63 := by decide
  rw [hmax] at hN
  refine ⟨by decide, by decide, by decide, ?_, by omega, by omega, by decide,
    by decide⟩
  refine ⟨appendLast8 (N + 1) out, ?_, length_appendLast8 _ _ hout⟩
  unfold doRepeat
  rw [if_neg (by omega)]

/-- Witness of C4: `N = 63` on an output of 8 bytes. -/
theorem repeat_bounds_witness :
    63 ≤ REPEAT_BITS_MAX ∧ 8 ≤ [1, 2, 3, 4, 5, 6, 7, 8].length ∧
    ∃ out', doRepeat [1, 2, 3, 4, 5, 6, 7, 8] 63 = some out' ∧
      out'.length = [1, 2, 3, 4, 5, 6, 7, 8].length + 8 * (63 + 1) :=
  ⟨by decide, by decide,
    (repeat_bounds 63 (by decide) [1, 2, 3, 4, 5, 6, 7, 8] (by decide)).2.2.2.1⟩

/-- C5: `SHORT_DATA_BITS` is 3 and `SHORT_DATA_BITS_MAX` is
`2^SHORT_DATA_BITS - 1 = 7`; every length `N` representable in
`SHORT_DATA_BITS` bits satisfies `0 ≤ N ≤ 7` and is below the 8 bytes of a full
group. -/
theorem short_data_bounds (N : Nat) (hN : N < 2 ^ SHORT_DATA_BITS) :
    SHORT_DATA_BITS = 3 ∧ SHORT_DATA_BITS_MAX = 2 ^ SHORT_DATA_BITS - 1 ∧
    SHORT_DATA_BITS_MAX = 7 ∧ 0 ≤ N ∧ N ≤ SHORT_DATA_BITS_MAX ∧ N ≤ 7 ∧ N < 8 := by
  have hb : (2 : Nat) ^ SHORT_DATA_BITS = 8 := by decide
  have hm : SHORT_DATA_BITS_MAX = 7 := by decide
  rw [hb] at hN
  refine ⟨by decide, by decide, by decide, by omega, by omega, by omega, hN⟩

/-- Witness of C5 at the largest length 7. -/
theorem short_data_bounds_witness :
    7 < 2 ^ SHORT_DATA_BITS ∧ 7 ≤ SHORT_DATA_BITS_MAX ∧ 7 < 8 :=
  ⟨by decide, (short_data_bounds 7 (by decide)).2.2.2.2.1,
    (short_data_bounds 7 (by decide)).2.2.2.2.2.2⟩

/-- C8: the masks `OP_ACTION` (0x70) and `OP_AMOUNT` (0x0f) are disjoint; the
action of D2, D4, D8 is `OP_ACTION_DATA`, of I2, I4, I8 `OP_ACTION_INDEX`, of N0
`OP_ACTION_NOOP`, the three tags being pairwise distinct; the amounts are 2, 4,
8 and 0 for N0; each op `x` of the seven is `(x & OP_ACTION) | (x & OP_AMOUNT)`
with its action one of the three tags; the seven values are pairwise distinct
and an op has amount 0 exactly when it is N0. -/
theorem op_encoding (x : Nat) (hx : x ∈ ops) :
    OP_ACTION = 0x70 ∧ OP_AMOUNT = 0x0f ∧ OP_ACTION &&& OP_AMOUNT = 0 ∧
    [D2 &&& OP_ACTION, D4 &&& OP_ACTION, D8 &&& OP_ACTION] =
      [OP_ACTION_DATA, OP_ACTION_DATA, OP_ACTION_DATA] ∧
    [I2 &&& OP_ACTION, I4 &&& OP_ACTION, I8 &&& OP_ACTION] =
      [OP_ACTION_INDEX, OP_ACTION_INDEX, OP_ACTION_INDEX] ∧
    N0 &&& OP_ACTION = OP_ACTION_NOOP ∧
    [OP_ACTION_DATA, OP_ACTION_INDEX, OP_ACTION_NOOP].Nodup ∧
    [D2 &&& OP_AMOUNT, D4 &&& OP_AMOUNT, D8 &&& OP_AMOUNT] = [2, 4, 8] ∧
    [I2 &&& OP_AMOUNT, I4 &&& OP_AMOUNT, I8 &&& OP_AMOUNT] = [2, 4, 8] ∧
    N0 &&& OP_AMOUNT = 0 ∧
    ops = [D2, D4, D8, I2, I4, I8, N0] ∧ ops.Nodup ∧
    x &&& OP_ACTION ∈ [OP_ACTION_DATA, OP_ACTION_INDEX, OP_ACTION_NOOP] ∧
    x = (x &&& OP_ACTION) ||| (x &&& OP_AMOUNT) ∧
    (x &&& OP_AMOUNT = 0 ↔ x = N0) := by
  refine ⟨by decide, by decide, by decide, by decide, by decide, by decide,
    by decide, by decide, by decide, by decide, by decide, by decide, ?_, ?_, ?_⟩
  all_goals
    simp only [ops, List.mem_cons, List.mem_singleton, List.not_mem_nil,
      or_false] at hx
    rcases hx with h | h | h | h | h | h | h <;> subst h <;> decide

/-- Witness of C8 at the op `I4`. -/
theorem op_encoding_witness :
    I4 ∈ ops ∧
    I4 = (I4 &&& OP_ACTION) ||| (I4 &&& OP_AMOUNT) ∧
    (I4 &&& OP_AMOUNT = 0 ↔ I4 = N0) :=
  ⟨by decide, (op_encoding I4 (by decide)).2.2.2.2.2.2.2.2.2.2.2.2.2.1,
    (op_encoding I4 (by decide)).2.2.2.2.2.2.2.2.2.2.2.2.2.2⟩

end Sw842

/-! ## `acp_get_byte_count` -/

namespace Acp

/-- C9: on an accepted `(direction, dai_id)` pair `acp_get_byte_count` makes two
reads and, with `high` and `low` the 32-bit values they return, gives back
`(high << 32) | low = high * 2^32 + low`, a value below `2^64` whose upper 32
bits are `high` and whose lower 32 bits are `low`; any pair of 32-bit values
combining to the same result is the pair `(high, low)`. -/
theorem acp_byte_count_value {σ : Type} (x : Externals) (d : Device σ) (s : σ)
    (adata : acp_dev_data) (dai_id direction : Int)
    (hacc : accepted x direction dai_id) (o : Outcome σ)
    (ho : acp_get_byte_count x d s adata dai_id direction = o) :
    o.reads.length = 2 ∧ o.errs = [] ∧
    firstRead d s o < 2 ^ 32 ∧ secondRead d s o < 2 ^ 32 ∧
    o.ret = byteCount (firstRead d s o) (secondRead d s o) ∧
    o.ret = firstRead d s o * 2 ^ 32 + secondRead d s o ∧
    o.ret / 2 ^ 32 = firstRead d s o ∧ o.ret % 2 ^ 32 = secondRead d s o ∧
    o.ret < 2 ^ 64 ∧
    (∀ high low, high < 2 ^ 32 → low < 2 ^ 32 → byteCount high low = o.ret →
      high = firstRead d s o ∧ low = secondRead d s o) := by
  obtain ⟨hiOff, loOff, hrc⟩ := accepted_readCounter x d s adata dai_id direction hacc
  rw [hrc] at ho
  subst ho
  have hspec := readCounter_spec d s adata hiOff loOff
  have h1 := firstRead_lt d s (readCounter d s adata hiOff loOff)
  have h2 := secondRead_lt d s (readCounter d s adata hiOff loOff)
  have hret := hspec.2.2
  have hsum := byteCount_eq _ _ h1 h2
  rw [← hret] at hsum
  refine ⟨hspec.1, hspec.2.1, h1, h2, hret, hsum, by omega, by omega, by omega, ?_⟩
  intro high low hh hl heq
  rw [byteCount_eq high low hh hl] at heq
  omega

/-- Witness of C9: a capture call on the DMIC instance of the example device,
whose reads return `0xFFFFFFFF` and `0xFFFFFFEA`. -/
theorem acp_byte_count_value_witness :
    accepted exampleExternals 1 DMIC_INSTANCE ∧
    (acp_get_byte_count exampleExternals exampleDevice 0 ⟨0x1000⟩
      DMIC_INSTANCE 1).ret = 0xFFFFFFFF * 2 ^ 32 + 0xFFFFFFEA :=
  ⟨by decide,
    (acp_byte_count_value exampleExternals exampleDevice 0 ⟨0x1000⟩ DMIC_INSTANCE 1
      (by decide) _ rfl).2.2.2.2.2.1⟩

/-- C10: `acp_get_byte_count` rejects a dai id exactly when it is outside the
accepted set of the direction (for playback SP, BT and HS, the DMIC instance
being rejected; for any other direction those three and DMIC).  A rejected call
reads no register, leaves the device as it was, reports the dai id and returns
`-EINVAL` as a `u64`, that is `2^64 - 22`; an accepted call reads twice, reports
nothing, and returns that same value when its reads give `0xFFFFFFFF` and
`0xFFFFFFEA`. -/
theorem acp_rejects_iff {σ : Type} (x : Externals) (d : Device σ) (s : σ)
    (adata : acp_dev_data) (dai_id direction : Int) (o : Outcome σ)
    (ho : acp_get_byte_count x d s adata dai_id direction = o) :
    (¬ accepted x x.SNDRV_PCM_STREAM_PLAYBACK DMIC_INSTANCE) ∧
    (direction ≠ x.SNDRV_PCM_STREAM_PLAYBACK → accepted x direction DMIC_INSTANCE) ∧
    (accepted x direction dai_id ↔
      dai_id = I2S_SP_INSTANCE ∨ dai_id = I2S_BT_INSTANCE ∨
      dai_id = I2S_HS_INSTANCE ∨
      (direction ≠ x.SNDRV_PCM_STREAM_PLAYBACK ∧ dai_id = DMIC_INSTANCE)) ∧
    (o.errs = [dai_id] ↔ ¬ accepted x direction dai_id) ∧
    (o.errs = [] ∧ o.reads.length = 2 ↔ accepted x direction dai_id) ∧
    (¬ accepted x direction dai_id →
      o.reads = [] ∧ o.dev = s ∧ o.ret = toU64 (-EINVAL) ∧ o.ret = 2 ^ 64 - 22) ∧
    (accepted x direction dai_id → firstRead d s o = 0xFFFFFFFF →
      secondRead d s o = 0xFFFFFFEA → o.ret = 2 ^ 64 - 22) := by
  have hrejOut : ¬ accepted x direction dai_id →
      o.errs = [dai_id] ∧ o.reads = [] ∧ o.dev = s ∧ o.ret = toU64 (-EINVAL) := by
    intro hrej
    rw [rejected_invalidDai x d s adata dai_id direction hrej] at ho
    subst ho
    simp [invalidDai]
  have haccOut : accepted x direction dai_id →
      o.errs = [] ∧ o.reads.length = 2 ∧
      o.ret = firstRead d s o * 2 ^ 32 + secondRead d s o := by
    intro hacc
    obtain ⟨hiOff, loOff, hrc⟩ :=
      accepted_readCounter x d s adata dai_id direction hacc
    rw [hrc] at ho
    subst ho
    have hspec := readCounter_spec d s adata hiOff loOff
    refine ⟨hspec.2.1, hspec.1, ?_⟩
    rw [hspec.2.2]
    exact byteCount_eq _ _ (firstRead_lt _ _ _) (secondRead_lt _ _ _)
  refine ⟨?_, ?_, ?_, ?_, ?_, ?_, ?_⟩
  · simp [accepted, DMIC_INSTANCE, I2S_SP_INSTANCE, I2S_BT_INSTANCE, I2S_HS_INSTANCE]
  · intro hdir
    simp [accepted, hdir]
  · unfold accepted
    by_cases hdir : direction = x.SNDRV_PCM_STREAM_PLAYBACK
    · simp [hdir]
    · simp [hdir]
  · constructor
    · intro herr hacc
      rw [(haccOut hacc).1] at herr
      simp at herr
    · intro hrej
      exact (hrejOut hrej).1
  · constructor
    · intro h
      by_contra hrej
      rw [(hrejOut hrej).2.1] at h
      simp at h
    · intro hacc
      exact ⟨(haccOut hacc).1, (haccOut hacc).2.1⟩
  · intro hrej
    refine ⟨(hrejOut hrej).2.1, (hrejOut hrej).2.2.1, (hrejOut hrej).2.2.2, ?_⟩
    rw [(hrejOut hrej).2.2.2]
    exact toU64_neg_EINVAL
  · intro hacc h1 h2
    rw [(haccOut hacc).2.2, h1, h2]
    norm_num

/-- Witness of C10: on the example device a playback call on the DMIC instance
is rejected without a read, and a capture call on it is accepted; both return
`2^64 - 22`. -/
theorem acp_rejects_iff_witness :
    (¬ accepted exampleExternals 0 DMIC_INSTANCE) ∧
    (acp_get_byte_count exampleExternals exampleDevice 0 ⟨0x1000⟩
      DMIC_INSTANCE 0).reads = [] ∧
    (acp_get_byte_count exampleExternals exampleDevice 0 ⟨0x1000⟩
      DMIC_INSTANCE 0).ret = 2 ^ 64 - 22 ∧
    accepted exampleExternals 1 DMIC_INSTANCE ∧
    (acp_get_byte_count exampleExternals exampleDevice 0 ⟨0x1000⟩
      DMIC_INSTANCE 1).ret = 2 ^ 64 - 22 :=
  ⟨by decide,
    ((acp_rejects_iff exampleExternals exampleDevice 0 ⟨0x1000⟩ DMIC_INSTANCE 0 _
      rfl).2.2.2.2.2.1 (by decide)).1,
    ((acp_rejects_iff exampleExternals exampleDevice 0 ⟨0x1000⟩ DMIC_INSTANCE 0 _
      rfl).2.2.2.2.2.1 (by decide)).2.2.2,
    by decide,
    (acp_rejects_iff exampleExternals exampleDevice 0 ⟨0x1000⟩ DMIC_INSTANCE 1 _
      rfl).2.2.2.2.2.2 (by decide) (by decide) (by decide)⟩

end Acp
